import Mathlib

/-!
Shallow embedding of the octocanvas repository (a client-side GitHub
profile artifact generator) for verifying its natural-language
specification. Definitions are translated from the TypeScript sources:
`src/components/ReadmeBanner.tsx` (which also carries
`WallpaperGenerator.tsx`), `src/components/DevemonCard.tsx`, and
`src/components/GitHubWallpaperApp.tsx`. Machine numbers are embedded as
`Nat`/`ℚ` (JavaScript numbers behave as exact reals on the ranges used
here), pixel buffers as total functions from indices, and asynchronous
image loads as `Option` values (`none` = the `img.onerror` path).
-/

namespace Octocanvas

/-- GitHub API user record, from `GitHubWallpaperApp.tsx` (`GitHubUser`
interface): the fields the embedded computations consume.
`weeks` holds the contribution series: each week is the list of the
daily `contributionCount` values of its present `contributionDays`. -/
structure GitHubUser where
  login : String
  followers : Nat
  public_repos : Nat
  totalContributions : Nat
  weeks : List (List Nat)
deriving DecidableEq

/-- Extended statistics fetched from the repository listing endpoint,
from `DevemonCard.tsx` (`ExtendedStats`): aggregated star and fork
totals. -/
structure ExtendedStats where
  totalStars : Nat
  totalForks : Nat
deriving DecidableEq

/-! ## Luminosity (ReadmeBanner.tsx lines 207-208, 315-323)

`const brightness = 0.299 * r + 0.587 * g + 0.114 * b;` -/

/-- Per-pixel luminosity, `0.299 * r + 0.587 * g + 0.114 * b`, shared by
`generateAsciiArt` and `generateGrayscaleArt` in `ReadmeBanner.tsx`. -/
def luminosity (r g b : ℚ) : ℚ :=
  0.299 * r + 0.587 * g + 0.114 * b

/-! ## Rarity (DevemonCard.tsx lines 107-121) -/

/-- The six rarity tiers of `RARITY_LEVELS` in `DevemonCard.tsx`. -/
inductive Rarity where
  | common
  | uncommon
  | rare
  | epic
  | legendary
  | mythical
deriving DecidableEq

/-- Position of a tier in the documented common → mythical ladder. -/
def Rarity.rank : Rarity → Nat
  | .common => 0
  | .uncommon => 1
  | .rare => 2
  | .epic => 3
  | .legendary => 4
  | .mythical => 5

/-- The power level computed by `calculateRarity` in `DevemonCard.tsx`:
`followers * 2 + public_repos * 1 + totalContributions * 0.1 +
totalStars * 3 + totalForks * 2`. -/
def powerLevel (user : GitHubUser) (stats : ExtendedStats) : ℚ :=
  (user.followers : ℚ) * 2 + (user.public_repos : ℚ) * 1 +
    (user.totalContributions : ℚ) * 0.1 +
    (stats.totalStars : ℚ) * 3 + (stats.totalForks : ℚ) * 2

/-- The threshold chain of `calculateRarity` applied to a power level. -/
def rarityOfPower (p : ℚ) : Rarity :=
  if p ≥ 5000 then .mythical
  else if p ≥ 2000 then .legendary
  else if p ≥ 800 then .epic
  else if p ≥ 300 then .rare
  else if p ≥ 100 then .uncommon
  else .common

/-- The `calculateRarity` function of `DevemonCard.tsx`: computes the power level
and buckets it through the threshold chain. -/
def calculateRarity (user : GitHubUser) (stats : ExtendedStats) : Rarity :=
  rarityOfPower (powerLevel user stats)

/-! ## ASCII transform (ReadmeBanner.tsx lines 96-236)

`generateAsciiArt` draws the avatar onto a 60×40 canvas, reads the RGBA
byte buffer, and maps each cell to a character. The characters that are
awkward to scan in Lean literals are written via `Char.ofNat`:
39 `'`, 96 backtick, 34 `"`, 125 `}`, 123 `{`. -/

/-- The `asciiChars` gradient of `generateAsciiArt`, 70 glyphs in source
order. -/
def asciiChars : List Char :=
  [' ', '.', Char.ofNat 39, Char.ofNat 96, '^', Char.ofNat 34, ',', ':',
   ';', 'I', 'l', '!', 'i', '>', '<', '~', '+', '_', '-', '?', ']', '[',
   Char.ofNat 125, Char.ofNat 123, '1', ')', '(', '|', '\\', '/', 't',
   'f', 'j', 'r', 'x', 'n', 'u', 'v', 'c', 'z', 'X', 'Y', 'U', 'J', 'C',
   'L', 'Q', '0', 'O', 'Z', 'm', 'w', 'q', 'p', 'd', 'b', 'k', 'h', 'a',
   'o', '*', '#', 'M', 'W', '&', '8', '%', 'B', '@', '$']

/-- Character-grid width of the ASCII canvas (`const width = 60`). -/
def asciiWidth : Nat := 60

/-- Character-grid height of the ASCII canvas (`const height = 40`). -/
def asciiHeight : Nat := 40

/-- The index `Math.floor((brightness / 255) * (asciiChars.length - 1))` for a
cell with byte channels `r g b`. -/
def charIndex (r g b : Nat) : Nat :=
  (⌊luminosity r g b / 255 * ((asciiChars.length : ℚ) - 1)⌋).toNat

/-- One cell of the ASCII grid: transparent cells (`a < 128`) become a
space, opaque cells index the gradient by brightness
(`ascii += asciiChars[charIndex]`). -/
def asciiCell (r g b a : Nat) : Char :=
  if a < 128 then ' ' else asciiChars.getD (charIndex r g b) ' '

/-- One row of the ASCII grid: the inner `for (let x ...)` loop of
`generateAsciiArt` over the RGBA buffer `data` at row `y`
(`const offset = (y * width + x) * 4`). -/
def asciiRow (data : Nat → Nat) (y : Nat) : String :=
  String.mk ((List.range asciiWidth).map fun x =>
    asciiCell (data ((y * asciiWidth + x) * 4))
      (data ((y * asciiWidth + x) * 4 + 1))
      (data ((y * asciiWidth + x) * 4 + 2))
      (data ((y * asciiWidth + x) * 4 + 3)))

/-- The first `n` rows accumulated by the outer `for (let y ...)` loop,
each row followed by the appended newline (`ascii += "\n"`). -/
def asciiRows (data : Nat → Nat) : Nat → String
  | 0 => ""
  | n + 1 => asciiRows data n ++ asciiRow data n ++ "\n"

/-- The `generateAsciiArt` function of `ReadmeBanner.tsx`, restricted to its pure
core: the string built from the 60×40 RGBA buffer `data` read off the
canvas. -/
def generateAsciiArt (data : Nat → Nat) : String :=
  asciiRows data asciiHeight

/-! ## Contribution graph squares (ReadmeBanner.tsx lines 1580-1667)

The `generateSVG` loop over `contributions.weeks.slice(-53)` emitting
one `<rect>` per present `contributionDays` entry, with the green
colour scheme of the non-blue themes. -/

/-- One emitted `<rect>` of the contribution graph. -/
structure ContributionSquare where
  weekIdx : Nat
  dayIdx : Nat
  count : Nat
  fill : String
deriving DecidableEq

/-- Fill colour chosen for a day in the green scheme
(`generateSVG`, lines 1645-1661): empty squares keep the initial
`"#000000"`. -/
def fillColorGreen (count : Nat) : String :=
  if count > 0 then
    if count ≥ 15 then "#5fed83"
    else if count ≥ 10 then "#5fed83"
    else if count ≥ 5 then "#8cf2a6"
    else if count ≥ 2 then "#bfffd1"
    else "#dcff96"
  else "#000000"

/-- The slice `contributions.weeks.slice(-53)`: the last 53 weeks (all of them
when fewer are present). -/
def recentWeeks (weeks : List (List Nat)) : List (List Nat) :=
  weeks.drop (weeks.length - 53)

/-- The squares emitted by the nested
`for (weekIdx ...) for (dayIdx < daysInWeek ...)` loops: one square per
present day, where `daysInWeek = week.contributionDays?.length || 0`. -/
def contributionSquares (weeks : List (List Nat)) : List ContributionSquare :=
  ((recentWeeks weeks).enum).flatMap fun wi =>
    (wi.2.enum).map fun di =>
      { weekIdx := wi.1, dayIdx := di.1, count := di.2,
        fill := fillColorGreen di.2 }

/-! ## Avatar art generators and the banner render (ReadmeBanner.tsx)

Each generator is an async function of one image load; `Option.none`
models the `img.onerror` path. Browser-side rasterization
(`canvas.toDataURL`) is abstracted as an arbitrary encoder argument. -/

/-- The banner art styles of `ReadmeBannerProps.artType`
(ReadmeBanner.tsx line 36). -/
inductive ArtType where
  | none
  | ascii
  | pixel
  | grayscale
  | color
deriving DecidableEq

/-- Option values of the `banner-avatar-style-selector` control in
`GitHubWallpaperApp.tsx` (lines 538-542). -/
def bannerArtOptionValues : List String :=
  ["none", "grayscale", "color", "ascii", "pixel"]

/-- Result of `generateAsciiArt` as a function of the image load:
the `onerror` handler resolves the promise with `""`. -/
def generateAsciiArtResult (load : Option (Nat → Nat)) : String :=
  match load with
  | Option.none => ""
  | Option.some data => generateAsciiArt data

/-- Result of `generatePixelArt` as a function of the image load: on
success the 64×64 downsampled canvas is encoded by `toDataURL`
(abstracted as `encode`); on `onerror` the promise resolves with `""`. -/
def generatePixelArtResult (encode : (Nat → Nat) → String)
    (load : Option (Nat → Nat)) : String :=
  match load with
  | Option.none => ""
  | Option.some img => encode img

/-- Byte length of the 256×256 RGBA buffer of `generateGrayscaleArt`
(`const size = 256`). -/
def grayscaleLen : Nat := 256 * 256 * 4

/-- The in-place grayscale pass of `generateGrayscaleArt`
(lines 315-323): for every loop offset `i < data.length` (stepping by
4), channels `i`, `i+1`, `i+2` are set to the luminosity of the pixel's
original R, G, B, and the alpha channel `i+3` is not written. A byte at
position `k` belongs to loop offset `4 * (k / 4)`. -/
def grayscaleData (data : Nat → ℚ) (len : Nat) : Nat → ℚ := fun k =>
  if 4 * (k / 4) < len ∧ k % 4 ≠ 3 then
    luminosity (data (4 * (k / 4))) (data (4 * (k / 4) + 1))
      (data (4 * (k / 4) + 2))
  else data k

/-- Result of `generateGrayscaleArt` as a function of the image load:
on success the grayscaled 256×256 buffer is put back and encoded by
`toDataURL` (abstracted as `encode`); on `onerror` the promise resolves
with `""`. -/
def generateGrayscaleArtResult (encode : (Nat → ℚ) → String)
    (load : Option (Nat → ℚ)) : String :=
  match load with
  | Option.none => ""
  | Option.some d => encode (grayscaleData d grayscaleLen)

/-- Result of `generateColorArt` as a function of the image load: the
unfiltered image is encoded on success; `onerror` resolves with `""`. -/
def generateColorArtResult (encode : (Nat → ℚ) → String)
    (load : Option (Nat → ℚ)) : String :=
  match load with
  | Option.none => ""
  | Option.some d => encode d

/-- The banner JSX renders an art column only when the selected style's
art string is non-empty (`artType === "ascii" && asciiArt && (...)` and
the three analogous guards); otherwise no art is shown — the default. -/
def artColumn (t : ArtType) (asciiArt pixelArt grayscaleArt colorArt :
    String) : Option String :=
  match t with
  | .none => Option.none
  | .ascii => if asciiArt ≠ "" then Option.some asciiArt else Option.none
  | .pixel => if pixelArt ≠ "" then Option.some pixelArt else Option.none
  | .grayscale =>
      if grayscaleArt ≠ "" then Option.some grayscaleArt else Option.none
  | .color => if colorArt ≠ "" then Option.some colorArt else Option.none

/-! ## Username normalization (GitHubWallpaperApp.tsx lines 57-58)

`const getCleanUsername = (username) => username.replace(/^@/, "").trim();` -/

/-- Character class of JavaScript `String.prototype.trim` restricted to
the ASCII whitespace and line terminators (the Unicode space characters
JS also trims are irrelevant to the embedded claims). -/
def jsWhitespaceChars : List Char :=
  [' ', '\t', '\n', '\r', Char.ofNat 11, Char.ofNat 12]

/-- Whether `trim` removes the character `c`. -/
def isJsWhitespace (c : Char) : Bool := jsWhitespaceChars.contains c

/-- The replacement `username.replace(/^@/, "")`: the anchored regex removes one
leading `@` when present. -/
def stripLeadingAt (s : String) : String :=
  match s.data with
  | '@' :: rest => String.mk rest
  | _ => s

/-- Trailing-whitespace removal half of `trim`. -/
def trimRightChars (l : List Char) : List Char :=
  (l.reverse.dropWhile isJsWhitespace).reverse

/-- JavaScript `String.prototype.trim`: strips whitespace from both
ends. -/
def jsTrim (s : String) : String :=
  String.mk (trimRightChars (s.data.dropWhile isJsWhitespace))

/-- The `getCleanUsername` helper of `GitHubWallpaperApp.tsx`: strip one leading
`@`, then trim. -/
def getCleanUsername (s : String) : String := jsTrim (stripLeadingAt s)

/-! ## Export surface dimensions -/

/-- The wallpaper size keys of `WallpaperGenerator.tsx`. -/
inductive SizeKey where
  | desktop
  | mobile
  | small
deriving DecidableEq

/-- One entry of the `SIZES` table. -/
structure SizeConfig where
  width : Nat
  height : Nat
  label : String
deriving DecidableEq

/-- The `SIZES` constant of `WallpaperGenerator.tsx` (lines
1196-1200). -/
def SIZES : SizeKey → SizeConfig
  | .desktop => ⟨2560, 1440, "Desktop (2560x1440)"⟩
  | .mobile => ⟨1179, 2556, "Mobile (1179x2556)"⟩
  | .small => ⟨320, 240, "Badger (320x240)"⟩

/-- Pixel dimensions of the PNG produced by `copyToClipboard` (and so
by `downloadWallpaper`) in `WallpaperGenerator.tsx`: the export canvas
is created with `canvas.width = size.width; canvas.height =
size.height` from `SIZES[sizeKey]` and encoded to a PNG blob of the
canvas dimensions; the profile data `u` only affects the SVG drawn onto
the canvas, never its size. -/
def wallpaperExportDims (k : SizeKey) (u : GitHubUser) : Nat × Nat :=
  ((SIZES k).width, (SIZES k).height)

/-- Raster size produced by `html2canvas(node, ... scale ...)`: the
capture canvas is the node's layout size multiplied by the integer
scale option. -/
def html2canvasDims (nodeWidth nodeHeight scale : Nat) : Nat × Nat :=
  (scale * nodeWidth, scale * nodeHeight)

/-- The README banner DOM node is laid out at a fixed inline-styled
1280×320 (`ReadmeBanner.tsx` lines 755-758). -/
def bannerNodeDims : Nat × Nat := (1280, 320)

/-- Pixel dimensions of the PNG produced by `downloadBanner` in
`ReadmeBanner.tsx`: it captures the banner node with
`html2canvas(standardBannerRef.current, ... scale: 2 ...)`. -/
def downloadBannerDims (u : GitHubUser) : Nat × Nat :=
  html2canvasDims bannerNodeDims.1 bannerNodeDims.2 2

/-- The banner export size the repository documents: the
`ReadmeBanner.tsx` header comment says `Export format: 1280×320
(standard banner size)`, and the README documents `Generate custom
1280×320px banners`. -/
def documentedBannerSize : Nat × Nat := (1280, 320)

/-- Modelled from the spec: the Devémon card DOM node's layout size.
The card node takes its dimensions from the `Card` class of
`DevemonCard.module.css`, which is not among the sources; the
repository README documents `Card: 350×550px portrait format`. -/
def cardNodeDims : Nat × Nat := (350, 550)

/-- The badge DOM node is laid out at a fixed 320×240
(`DevemonCard.tsx` line 635, classes `w-[320px] h-[240px]`). -/
def badgeNodeDims : Nat × Nat := (320, 240)

/-- The two download formats of `DevemonCard.tsx`. -/
inductive CardFormat where
  | card
  | badge
deriving DecidableEq

/-- Pixel dimensions of the PNG produced by `downloadCard` in
`DevemonCard.tsx`: it captures the chosen node with
`html2canvas(targetRef.current, ... scale: 3 ...)`. -/
def downloadCardDims (f : CardFormat) (u : GitHubUser) : Nat × Nat :=
  match f with
  | .card => html2canvasDims cardNodeDims.1 cardNodeDims.2 3
  | .badge => html2canvasDims badgeNodeDims.1 badgeNodeDims.2 3

/-- A concrete profile record used by closed statements. -/
def exampleUser : GitHubUser := ⟨"octocat", 0, 0, 0, []⟩

/-! ## Theorems -/

theorem rarityOfPower_mono {p q : ℚ} (h : p ≤ q) :
    (rarityOfPower p).rank ≤ (rarityOfPower q).rank := by
  unfold rarityOfPower
  split_ifs <;> simp_all [Rarity.rank] <;> linarith

/-- C3: the rarity bucketing is monotonic in the computed power score —
a strictly higher power score never yields a strictly lower tier — and
the boundary score 100 resolves to Uncommon, the tier whose range
begins at 100, not to Common below it. -/
theorem calculateRarity_monotone_and_boundary
    (u : GitHubUser) (s : ExtendedStats) (v : GitHubUser) (t : ExtendedStats) :
    (powerLevel u s < powerLevel v t →
      (calculateRarity u s).rank ≤ (calculateRarity v t).rank) ∧
    (powerLevel u s = 100 → calculateRarity u s = .uncommon) := by
  constructor
  · intro h
    exact rarityOfPower_mono (le_of_lt h)
  · intro h
    unfold calculateRarity rarityOfPower
    rw [h]
    norm_num

/-- Witness for C3 at concrete profiles: the zero profile scores 0
(Common) and a 50-follower profile scores exactly 100 (Uncommon). -/
theorem calculateRarity_monotone_and_boundary_witness :
    ((calculateRarity ⟨"a", 0, 0, 0, []⟩ ⟨0, 0⟩).rank ≤
      (calculateRarity ⟨"b", 50, 0, 0, []⟩ ⟨0, 0⟩).rank) ∧
    calculateRarity ⟨"b", 50, 0, 0, []⟩ ⟨0, 0⟩ = .uncommon := by
  have h := calculateRarity_monotone_and_boundary
    ⟨"a", 0, 0, 0, []⟩ ⟨0, 0⟩ ⟨"b", 50, 0, 0, []⟩ ⟨0, 0⟩
  refine ⟨h.1 ?_, ?_⟩
  · unfold powerLevel
    norm_num
  · have h2 := (calculateRarity_monotone_and_boundary
      ⟨"b", 50, 0, 0, []⟩ ⟨0, 0⟩ ⟨"b", 50, 0, 0, []⟩ ⟨0, 0⟩).2
    apply h2
    unfold powerLevel
    norm_num

/-- C5: for every valid (R,G,B) triple with channels in [0,255], the
luminosity `0.299·R + 0.587·G + 0.114·B` lies in [0,255] and is
monotonically non-decreasing in each of the three channels. -/
theorem luminosity_range_and_monotone (r g b : Nat)
    (hr : r ≤ 255) (hg : g ≤ 255) (hb : b ≤ 255) :
    (0 ≤ luminosity r g b ∧ luminosity r g b ≤ 255) ∧
    (∀ r2 : Nat, r ≤ r2 → luminosity r g b ≤ luminosity r2 g b) ∧
    (∀ g2 : Nat, g ≤ g2 → luminosity r g b ≤ luminosity r g2 b) ∧
    (∀ b2 : Nat, b ≤ b2 → luminosity r g b ≤ luminosity r g b2) := by
  have hr2 : (r : ℚ) ≤ 255 := by exact_mod_cast hr
  have hg2 : (g : ℚ) ≤ 255 := by exact_mod_cast hg
  have hb2 : (b : ℚ) ≤ 255 := by exact_mod_cast hb
  have hr0 : (0 : ℚ) ≤ r := Nat.cast_nonneg r
  have hg0 : (0 : ℚ) ≤ g := Nat.cast_nonneg g
  have hb0 : (0 : ℚ) ≤ b := Nat.cast_nonneg b
  refine ⟨⟨?_, ?_⟩, ?_, ?_, ?_⟩
  · unfold luminosity; linarith
  · unfold luminosity; linarith
  · intro r2 h
    have : (r : ℚ) ≤ r2 := by exact_mod_cast h
    unfold luminosity; linarith
  · intro g2 h
    have : (g : ℚ) ≤ g2 := by exact_mod_cast h
    unfold luminosity; linarith
  · intro b2 h
    have : (b : ℚ) ≤ b2 := by exact_mod_cast h
    unfold luminosity; linarith

theorem asciiChars_length : asciiChars.length = 70 := rfl

theorem newline_not_mem_asciiChars : '\n' ∉ asciiChars := by decide

theorem luminosity_nonneg (r g b : Nat) : 0 ≤ luminosity r g b := by
  have hr0 : (0 : ℚ) ≤ r := Nat.cast_nonneg r
  have hg0 : (0 : ℚ) ≤ g := Nat.cast_nonneg g
  have hb0 : (0 : ℚ) ≤ b := Nat.cast_nonneg b
  unfold luminosity; linarith

theorem charIndex_lt (r g b : Nat) (hr : r ≤ 255) (hg : g ≤ 255)
    (hb : b ≤ 255) : charIndex r g b < asciiChars.length := by
  have hr2 : (r : ℚ) ≤ 255 := by exact_mod_cast hr
  have hg2 : (g : ℚ) ≤ 255 := by exact_mod_cast hg
  have hb2 : (b : ℚ) ≤ 255 := by exact_mod_cast hb
  have hlum : luminosity r g b ≤ 255 := by unfold luminosity; linarith
  have harg : luminosity r g b / 255 * ((asciiChars.length : ℚ) - 1) ≤ 69 := by
    rw [asciiChars_length]
    have h255 : luminosity r g b / 255 ≤ 1 := by
      rw [div_le_one (by norm_num)]; exact hlum
    have h0 : 0 ≤ luminosity r g b / 255 := by
      have := luminosity_nonneg r g b
      positivity
    push_cast
    nlinarith
  have hfl : ⌊luminosity r g b / 255 * ((asciiChars.length : ℚ) - 1)⌋ ≤ 69 :=
    calc ⌊luminosity r g b / 255 * ((asciiChars.length : ℚ) - 1)⌋
        ≤ ⌊(69 : ℚ)⌋ := Int.floor_le_floor harg
      _ = 69 := by norm_num
  rw [asciiChars_length]
  unfold charIndex
  omega

theorem asciiCell_mem (r g b a : Nat) : asciiCell r g b a ∈ asciiChars := by
  unfold asciiCell
  split_ifs
  · decide
  · by_cases h : charIndex r g b < asciiChars.length
    · rw [List.getD_eq_getElem _ _ h]
      exact List.getElem_mem _
    · rw [List.getD_eq_default _ _ (by omega)]
      decide

theorem asciiCell_ne_newline (r g b a : Nat) : asciiCell r g b a ≠ '\n' := by
  intro h
  exact newline_not_mem_asciiChars (h ▸ asciiCell_mem r g b a)

/-- C4: in the ASCII transform, every cell at or above the alpha
threshold 128 (~50% of 255) maps to the glyph at index
`floor(brightness / 255 * (N - 1))` of the fixed 70-glyph gradient —
with the darkest glyph (space) at brightness 0 and the brightest at
brightness 255 — and every cell below the threshold maps to whitespace
regardless of luminosity. -/
theorem asciiCell_threshold_and_palette (r g b a : Nat)
    (hr : r ≤ 255) (hg : g ≤ 255) (hb : b ≤ 255) :
    asciiChars.length = 70 ∧
    charIndex r g b =
      (⌊(0.299 * (r : ℚ) + 0.587 * (g : ℚ) + 0.114 * (b : ℚ)) / 255 *
        (70 - 1)⌋).toNat ∧
    (128 ≤ a → ∃ h : charIndex r g b < asciiChars.length,
      asciiCell r g b a = asciiChars.get ⟨charIndex r g b, h⟩) ∧
    (a < 128 → asciiCell r g b a = ' ') ∧
    asciiCell 0 0 0 255 = ' ' ∧ asciiCell 255 255 255 255 = '$' := by
  refine ⟨asciiChars_length, ?_, ?_, ?_, ?_, ?_⟩
  · unfold charIndex luminosity
    rw [asciiChars_length]
    norm_num
  · intro ha
    refine ⟨charIndex_lt r g b hr hg hb, ?_⟩
    unfold asciiCell
    rw [if_neg (by omega), List.getD_eq_getElem _ _ (charIndex_lt r g b hr hg hb)]
    rfl
  · intro ha
    unfold asciiCell
    rw [if_pos ha]
  · have h0 : charIndex 0 0 0 = 0 := by
      unfold charIndex luminosity
      norm_num
    unfold asciiCell
    rw [if_neg (by norm_num), h0]
    rfl
  · have h255 : charIndex 255 255 255 = 69 := by
      unfold charIndex luminosity
      rw [asciiChars_length]
      norm_num
      decide
    unfold asciiCell
    rw [if_neg (by norm_num), h255]
    rfl

/-- Witness for C4 at the cell (10, 20, 30) with alpha 200 (opaque) and
alpha 100 (transparent). -/
theorem asciiCell_threshold_and_palette_witness :
    (∃ h : charIndex 10 20 30 < asciiChars.length,
      asciiCell 10 20 30 200 = asciiChars.get ⟨charIndex 10 20 30, h⟩) ∧
    asciiCell 10 20 30 100 = ' ' := by
  have h := asciiCell_threshold_and_palette 10 20 30 200
    (by norm_num) (by norm_num) (by norm_num)
  have h2 := asciiCell_threshold_and_palette 10 20 30 100
    (by norm_num) (by norm_num) (by norm_num)
  exact ⟨h.2.2.1 (by norm_num), h2.2.2.2.1 (by norm_num)⟩

theorem asciiRow_counts (data : Nat → Nat) (y : Nat) :
    ((asciiRow data y).data.filter
      (fun c => decide (c ∈ asciiChars))).length = 60 ∧
    ((asciiRow data y).data.filter
      (fun c => decide (c = '\n'))).length = 0 ∧
    (asciiRow data y).data.length = 60 := by
  unfold asciiRow
  refine ⟨?_, ?_, ?_⟩
  · rw [List.filter_eq_self.mpr]
    · simp [asciiWidth]
    · intro c hc
      simp only [List.mem_map] at hc
      obtain ⟨x, _, rfl⟩ := hc
      simpa using asciiCell_mem _ _ _ _
  · rw [List.filter_eq_nil_iff.mpr]
    · rfl
    · intro c hc
      simp only [List.mem_map] at hc
      obtain ⟨x, _, rfl⟩ := hc
      simpa using asciiCell_ne_newline _ _ _ _
  · simp [asciiWidth]

theorem asciiRows_counts (data : Nat → Nat) (n : Nat) :
    ((asciiRows data n).data.filter
      (fun c => decide (c ∈ asciiChars))).length = n * 60 ∧
    ((asciiRows data n).data.filter
      (fun c => decide (c = '\n'))).length = n ∧
    (asciiRows data n).data.length = n * 61 := by
  induction n with
  | zero => exact ⟨rfl, rfl, rfl⟩
  | succ n ih =>
    have hrow := asciiRow_counts data n
    have h1 : (asciiRows data (n + 1)).data
        = (asciiRows data n).data ++ ((asciiRow data n).data ++ "\n".data) := by
      show (asciiRows data n ++ asciiRow data n ++ "\n").data = _
      rw [String.data_append, String.data_append, List.append_assoc]
    refine ⟨?_, ?_, ?_⟩
    · rw [h1, List.filter_append, List.filter_append, List.length_append,
        List.length_append, ih.1, hrow.1]
      have hnl : (List.filter (fun c => decide (c ∈ asciiChars))
          "\n".data).length = 0 := by decide
      rw [hnl]
      ring
    · rw [h1, List.filter_append, List.filter_append, List.length_append,
        List.length_append, ih.2.1, hrow.2.1]
      have hnl : (List.filter (fun c => decide (c = '\n'))
          "\n".data).length = 1 := by decide
      rw [hnl]
    · rw [h1, List.length_append, List.length_append, ih.2.2, hrow.2.2]
      have hnl : "\n".data.length = 1 := rfl
      rw [hnl]
      ring

/-- C6: for every 60×40 input pixel buffer, the ASCII transform's output
contains exactly 40 × 60 = 2400 palette characters and exactly one
newline per row (40 in total, 2440 characters overall), and re-running
the transform on identical input pixels yields the identical string. -/
theorem generateAsciiArt_shape_and_deterministic (data : Nat → Nat) :
    ((generateAsciiArt data).data.filter
      (fun c => decide (c ∈ asciiChars))).length = 40 * 60 ∧
    ((generateAsciiArt data).data.filter
      (fun c => decide (c = '\n'))).length = 40 ∧
    (generateAsciiArt data).length = 40 * 60 + 40 ∧
    '\n' ∉ asciiChars ∧
    generateAsciiArt data = generateAsciiArt data := by
  have h := asciiRows_counts data 40
  refine ⟨h.1, h.2.1, ?_, newline_not_mem_asciiChars, rfl⟩
  show (generateAsciiArt data).data.length = 40 * 60 + 40
  unfold generateAsciiArt asciiHeight
  rw [h.2.2]

/-- Witness for C5 at the triple (10, 200, 30). -/
theorem luminosity_range_and_monotone_witness :
    (0 ≤ luminosity 10 200 30 ∧ luminosity 10 200 30 ≤ 255) ∧
    luminosity 10 200 30 ≤ luminosity 255 200 30 := by
  have h := luminosity_range_and_monotone 10 200 30
    (by norm_num) (by norm_num) (by norm_num)
  refine ⟨⟨?_, ?_⟩, ?_⟩
  · have := h.1.1; push_cast at this ⊢; exact this
  · have := h.1.2; push_cast at this ⊢; exact this
  · have := h.2.1 255 (by norm_num); push_cast at this ⊢; exact this

/-- C1 counterexample: the claim "the exported raster image's pixel
dimensions exactly match the documented fixed size for that category"
fails for the banner artifact: `downloadBanner` captures the 1280×320
banner node at scale 2, so the exported PNG is 2560×640, not the
documented 1280×320. -/
theorem downloadBannerDims_ne_documented :
    downloadBannerDims exampleUser ≠ documentedBannerSize := by
  decide

/-- C1 (amended): every artifact category exports at a fixed pixel size
independent of the profile data: the wallpapers exactly at their
`SIZES` entry (desktop exactly 2560×1440), the banner at 2× its fixed
1280×320 node size, and the card/badge at 3× their fixed 350×550 /
320×240 node sizes. -/
theorem export_dims_fixed (k : SizeKey) (u v : GitHubUser)
    (f : CardFormat) :
    wallpaperExportDims k u = ((SIZES k).width, (SIZES k).height) ∧
    wallpaperExportDims k u = wallpaperExportDims k v ∧
    wallpaperExportDims .desktop u = (2560, 1440) ∧
    downloadBannerDims u = (2 * 1280, 2 * 320) ∧
    downloadBannerDims u = downloadBannerDims v ∧
    downloadCardDims f u = downloadCardDims f v ∧
    downloadCardDims .card u = (3 * 350, 3 * 550) ∧
    downloadCardDims .badge u = (3 * 320, 3 * 240) := by
  refine ⟨rfl, rfl, rfl, rfl, rfl, ?_, rfl, rfl⟩
  cases f <;> rfl

/-- C2: the banner avatar style selector and the `artType` union offer
only none/grayscale/color/ascii/pixel — no posterize/cartoon transform
exists in the code, although the repository README documents a
`Cartoon: Posterized and edge-detected cartoon effect` style. -/
theorem no_cartoon_art_style :
    "cartoon" ∉ bannerArtOptionValues ∧
    "posterize" ∉ bannerArtOptionValues ∧
    bannerArtOptionValues = ["none", "grayscale", "color", "ascii", "pixel"] := by
  refine ⟨?_, ?_, rfl⟩ <;> decide

/-- C8: when the avatar image fails to decode, each of the four art
generators resolves with the empty string instead of throwing, and a
banner configured with any art style renders no art column for the
empty result — the caller's default. -/
theorem artGenerators_error_to_empty (encodeN : (Nat → Nat) → String)
    (encodeQ : (Nat → ℚ) → String) :
    generateAsciiArtResult Option.none = "" ∧
    generatePixelArtResult encodeN Option.none = "" ∧
    generateGrayscaleArtResult encodeQ Option.none = "" ∧
    generateColorArtResult encodeQ Option.none = "" ∧
    ∀ t : ArtType, artColumn t "" "" "" "" = Option.none := by
  refine ⟨rfl, rfl, rfl, rfl, ?_⟩
  intro t
  cases t <;> rfl

theorem dropWhile_idem (p : Char → Bool) (l : List Char) :
    List.dropWhile p (List.dropWhile p l) = List.dropWhile p l := by
  induction l with
  | nil => rfl
  | cons c t ih =>
    by_cases h : p c
    · simp [List.dropWhile_cons, h, ih]
    · simp [List.dropWhile_cons, h]

theorem dropWhile_trimRight (l : List Char)
    (hl : List.dropWhile isJsWhitespace l = l) :
    List.dropWhile isJsWhitespace (trimRightChars l) = trimRightChars l := by
  cases l with
  | nil => rfl
  | cons c t =>
    have hc : ¬ isJsWhitespace c = true := by
      intro h
      rw [List.dropWhile_cons, if_pos h] at hl
      have h1 := (List.dropWhile_sublist (l := t) isJsWhitespace).length_le
      have h2 := congrArg List.length hl
      simp at h2
      omega
    unfold trimRightChars
    rw [List.reverse_cons, List.dropWhile_append]
    by_cases he : (List.dropWhile isJsWhitespace t.reverse).isEmpty
    · rw [if_pos he]
      simp [List.dropWhile_cons, hc]
    · rw [if_neg he]
      rw [List.reverse_append]
      simp only [List.reverse_cons, List.reverse_nil, List.nil_append,
        List.singleton_append]
      rw [List.dropWhile_cons, if_neg hc]

theorem trimRight_idem (l : List Char) :
    trimRightChars (trimRightChars l) = trimRightChars l := by
  unfold trimRightChars
  rw [List.reverse_reverse, dropWhile_idem]

theorem data_mk (l : List Char) : (String.mk l).data = l := rfl

theorem jsTrim_idem (s : String) : jsTrim (jsTrim s) = jsTrim s := by
  unfold jsTrim
  rw [data_mk]
  rw [dropWhile_trimRight _ (dropWhile_idem _ _), trimRight_idem]

theorem stripLeadingAt_eq_self (s : String)
    (h : s.data.head? ≠ Option.some '@') : stripLeadingAt s = s := by
  unfold stripLeadingAt
  split
  · rename_i rest heq
    exact absurd (by rw [heq]; rfl) h
  · rfl

/-- C9 counterexample: `getCleanUsername` strips the anchored leading
`@` before trimming, so it is not idempotent: on `" @octo"` one
application yields `"@octo"` and a second application yields
`"octo"`. -/
theorem getCleanUsername_not_idempotent :
    getCleanUsername (getCleanUsername " @octo")
      ≠ getCleanUsername " @octo" ∧
    getCleanUsername " @octo" = "@octo" ∧
    getCleanUsername (getCleanUsername " @octo") = "octo" := by
  refine ⟨?_, ?_, ?_⟩ <;> decide

/-- C9 (amended): the normalization is idempotent on every input whose
once-normalized form does not itself start with `@` — for such inputs a
once-normalized username produces the same profile request URL as a
twice-normalized one. -/
theorem getCleanUsername_idem (s : String)
    (h : (getCleanUsername s).data.head? ≠ Option.some '@') :
    getCleanUsername (getCleanUsername s) = getCleanUsername s := by
  unfold getCleanUsername at h ⊢
  rw [stripLeadingAt_eq_self _ h]
  exact jsTrim_idem _

/-- Witness for the amended C9 at `"@octo "`. -/
theorem getCleanUsername_idem_witness :
    getCleanUsername (getCleanUsername "@octo ")
      = getCleanUsername "@octo " :=
  getCleanUsername_idem "@octo " (by decide)

/-- C10: the grayscale pass writes the computed luminosity to the R, G
and B bytes of every pixel the loop reaches and leaves every alpha byte
(offset `4·i+3`) unchanged. -/
theorem grayscale_rgb_only_alpha_unchanged (data : Nat → ℚ)
    (len i : Nat) :
    grayscaleData data len (4 * i + 3) = data (4 * i + 3) ∧
    (4 * i < len →
      grayscaleData data len (4 * i)
          = luminosity (data (4 * i)) (data (4 * i + 1)) (data (4 * i + 2)) ∧
      grayscaleData data len (4 * i + 1)
          = luminosity (data (4 * i)) (data (4 * i + 1)) (data (4 * i + 2)) ∧
      grayscaleData data len (4 * i + 2)
          = luminosity (data (4 * i)) (data (4 * i + 1)) (data (4 * i + 2))) := by
  have h3 : (4 * i + 3) % 4 = 3 := by omega
  have hq3 : (4 * i + 3) / 4 = i := by omega
  have hq0 : (4 * i) / 4 = i := by omega
  have hq1 : (4 * i + 1) / 4 = i := by omega
  have hq2 : (4 * i + 2) / 4 = i := by omega
  constructor
  · unfold grayscaleData
    rw [if_neg]
    intro hcon
    omega
  · intro hlen
    refine ⟨?_, ?_, ?_⟩ <;> unfold grayscaleData
    · rw [if_pos (by omega), hq0]
    · rw [if_pos (by omega), hq1]
    · rw [if_pos (by omega), hq2]

/-- Witness for C10 on the buffer `k ↦ k` of length 8: the alpha byte
at offset 3 is unchanged and the R byte at offset 0 becomes the pixel's
luminosity. -/
theorem grayscale_rgb_only_alpha_unchanged_witness :
    grayscaleData (fun n => (n : ℚ)) 8 3 = 3 ∧
    grayscaleData (fun n => (n : ℚ)) 8 0 = luminosity 0 1 2 := by
  have h := grayscale_rgb_only_alpha_unchanged (fun n => (n : ℚ)) 8 0
  constructor
  · have h1 := h.1
    norm_num at h1
    convert h1 using 2
  · have h2 := (h.2 (by norm_num)).1
    norm_num at h2
    convert h2 using 2

theorem contributionSquares_length (weeks : List (List Nat)) :
    (contributionSquares weeks).length
      = ((recentWeeks weeks).map List.length).sum := by
  unfold contributionSquares
  rw [List.length_flatMap]
  congr 1
  rw [show ((recentWeeks weeks).map List.length)
      = ((recentWeeks weeks).enum.map Prod.snd).map List.length by
    rw [List.enum_map_snd]]
  rw [List.map_map]
  apply List.map_congr_left
  intro wi _
  simp

/-- C7: rendering the contribution graph performs no out-of-bounds
access — it emits exactly one square per day present in the (last 53)
weeks, each square indexing an existing day with that day's count, so a
week with fewer than 7 entries simply leaves its missing days blank. -/
theorem contributionSquares_safe (weeks : List (List Nat)) :
    (contributionSquares weeks).length
      = ((recentWeeks weeks).map List.length).sum ∧
    ∀ sq ∈ contributionSquares weeks,
      ∃ h : sq.weekIdx < (recentWeeks weeks).length,
        sq.dayIdx < ((recentWeeks weeks).get ⟨sq.weekIdx, h⟩).length ∧
        sq.count = ((recentWeeks weeks).get ⟨sq.weekIdx, h⟩).getD sq.dayIdx 0 := by
  refine ⟨contributionSquares_length weeks, ?_⟩
  intro sq hsq
  unfold contributionSquares at hsq
  rw [List.mem_flatMap] at hsq
  obtain ⟨wi, hwi, hsq⟩ := hsq
  rw [List.mem_map] at hsq
  obtain ⟨di, hdi, rfl⟩ := hsq
  rw [List.mem_enum_iff_getElem?] at hwi hdi
  obtain ⟨hw, hweek⟩ := List.getElem?_eq_some.mp hwi
  obtain ⟨hd, hday⟩ := List.getElem?_eq_some.mp hdi
  refine ⟨hw, ?_, ?_⟩
  · simp only [List.get_eq_getElem, hweek]
    exact hd
  · simp only [List.get_eq_getElem, hweek]
    rw [List.getD_eq_getElem _ _ hd]
    exact hday.symm

/-- Witness for C7 on a series whose only week has 3 day-entries:
exactly 3 squares are emitted and the square for day 2 indexes a
present day carrying its count. -/
theorem contributionSquares_safe_witness :
    (contributionSquares [[5, 0, 2]]).length
      = ((recentWeeks [[5, 0, 2]]).map List.length).sum ∧
    ∃ h : (0 : Nat) < (recentWeeks [[5, 0, 2]]).length,
      2 < ((recentWeeks [[5, 0, 2]]).get ⟨0, h⟩).length ∧
      2 = ((recentWeeks [[5, 0, 2]]).get ⟨0, h⟩).getD 2 0 := by
  refine ⟨(contributionSquares_safe [[5, 0, 2]]).1, ?_⟩
  exact (contributionSquares_safe [[5, 0, 2]]).2
    ⟨0, 2, 2, "#bfffd1"⟩ (by decide)

end Octocanvas
